import Mathlib

/-!
Verification development for the wallet-service ledger (`app/routers/wallet.py`
together with the data model of `app/models.py`).

The Python handlers are shallowly embedded as pure Lean functions over an
explicit database state.  SQLModel rows become structures, the session becomes
a `DBState` value threaded through each handler, `session.exec(select(...))
.first()` becomes `List.find?`, mutation of a row followed by `session.commit()`
becomes an id-keyed `List.map` update, and `HTTPException` / returned dicts
become explicit result constructors.  External effects that the handlers
consume (HMAC computation, JSON parsing, UUID generation, Paystack calls,
PIN-hash verification) are passed in as parameters, mirroring the fact that the
code treats them as opaque collaborators.

Fields of the rows that no modelled handler reads (timestamps, currency code,
the opaque `meta_data` blobs that hold only provenance strings) are carried
where the handlers write them and omitted where they are pure noise
(`created_at`, `updated_at`, `currency`).
-/

/-- `TransactionStatus` from `app/models.py` (`pending` / `success` / `failed`). -/
inductive TransactionStatus where
  | pending
  | success
  | failed
deriving DecidableEq, Repr

/-- Modelled from the spec: the runtime transaction-type enum lives in
`app/models/core.py`, which is absent from the source tree (the `app.models`
package shadows the older `app/models.py` module, whose enum predates the
withdrawal flow).  Spec §3 fixes `type ∈ {deposit, transfer, withdrawal}`, and
`app/routers/wallet.py` uses all three members. -/
inductive TransactionType where
  | deposit
  | transfer
  | withdrawal
deriving DecidableEq, Repr

/-- `Wallet` row (`app/models.py`): primary key, unique 10-digit
`wallet_number`, and a signed integer `balance` in minor units. -/
structure Wallet where
  id : Nat
  wallet_number : String
  balance : Int
deriving DecidableEq, Repr

/-- `Transaction` row (`app/models.py`): signed `amount` (positive = credit,
negative = debit), type, status, unique `reference`, owning `wallet_id`, and
the free-form `meta_data` bag (modelled as string key/value pairs). -/
structure Transaction where
  id : Nat
  amount : Int
  transaction_type : TransactionType
  status : TransactionStatus
  reference : String
  wallet_id : Nat
  meta_data : List (String × String)
deriving DecidableEq, Repr

/-- The slice of `User` (`app/models.py`) the wallet handlers read: the
optional transaction-PIN hash and the 1:1 `wallet` relationship (the
session-loaded wallet row, `None` when the user has no wallet linked). -/
structure User where
  id : Nat
  pin_hash : Option String
  wallet : Option Wallet
deriving DecidableEq, Repr

/-- The database state the handlers mutate: the wallet table and the
transaction table. -/
structure DBState where
  wallets : List Wallet
  transactions : List Transaction
deriving DecidableEq, Repr

/-- `session.exec(select(Wallet).where(Wallet.id == i)).first()`. -/
def getWallet (st : DBState) (i : Nat) : Option Wallet :=
  st.wallets.find? (fun w => w.id == i)

/-- `session.exec(select(Transaction).where(Transaction.reference == r)).first()`. -/
def getTransactionByRef (st : DBState) (r : String) : Option Transaction :=
  st.transactions.find? (fun t => t.reference == r)

/-- The parsed body of a Paystack webhook, as the handler reads it with
`event_data.get("event")`, `data.get("reference")` and `data.get("amount")`:
every field may be missing.  A `data_amount` of `none` also stands for a
non-integer JSON value there, which makes `wallet.balance += amount_paid`
raise and the handler roll back. -/
structure WebhookEvent where
  event : Option String
  data_reference : Option String
  data_amount : Option Int
deriving DecidableEq, Repr

/-- The webhook handler's observable outcome: a raised `HTTPException`
(status code and detail) or a returned `{"status": ..., "message": ...}`
dictionary. -/
inductive WebhookResult where
  | httpError (status : Nat) (detail : String)
  | resp (status : String) (message : Option String)
deriving DecidableEq, Repr

/-- The engine half of `paystack_webhook` (`app/routers/wallet.py` lines
99-138): everything after signature verification and JSON parsing.  Ignores
events other than `charge.success`; looks the transaction up by reference;
treats an already-`success` transaction as already processed; otherwise
locks the owning wallet, credits `amount_paid`, marks the transaction
`success`, and commits both writes atomically.  A missing (or non-integer)
`amount` makes the `try` block raise, which rolls the transaction back. -/
def paystack_webhook_engine (event : WebhookEvent) (st : DBState) :
    WebhookResult × DBState :=
  if event.event ≠ some "charge.success" then
    (.resp "ignored" (some "Event type not monitored"), st)
  else
    match st.transactions.find? (fun t => some t.reference == event.data_reference) with
    | none => (.resp "error" (some "Transaction not found"), st)
    | some transaction =>
      if transaction.status = TransactionStatus.success then
        (.resp "ignored" (some "Transaction already processed"), st)
      else
        match st.wallets.find? (fun w => w.id == transaction.wallet_id) with
        | none => (.resp "error" (some "Wallet not found"), st)
        | some wallet =>
          match event.data_amount with
          | none => (.resp "error" (some "Internal server error"), st)
          | some amount_paid =>
            (.resp "success" none,
             { wallets := st.wallets.map (fun w =>
                 if w.id = wallet.id then { w with balance := w.balance + amount_paid } else w),
               transactions := st.transactions.map (fun t =>
                 if t.id = transaction.id then { t with status := TransactionStatus.success } else t) })

/-- `paystack_webhook` (`app/routers/wallet.py` lines 70-138) including the
admission gate: reject a missing signature header, compute the HMAC-SHA-512
hex digest of the exact raw body under the configured secret (the digest
function is passed in as `hmacSha512`), compare with `hmac.compare_digest`,
reject on mismatch, then parse the JSON body (`parseJson`, `none` =
`json.JSONDecodeError`) and hand the event to the engine. -/
def paystack_webhook (hmacSha512 : String → String → String)
    (parseJson : String → Option WebhookEvent) (secret : String)
    (x_paystack_signature : Option String) (body : String) (st : DBState) :
    WebhookResult × DBState :=
  match x_paystack_signature with
  | none => (.httpError 400 "Missing signature header", st)
  | some sig =>
    if hmacSha512 secret body ≠ sig then
      (.httpError 400 "Invalid signature", st)
    else
      match parseJson body with
      | none => (.httpError 400 "Invalid JSON", st)
      | some event_data => paystack_webhook_engine event_data st

/-- `TransferRequest` (`app/schemas.py`): recipient wallet number, integer
amount, free-text description (default `"Transfer"`), and the PIN. -/
structure TransferRequest where
  wallet_number : String
  amount : Int
  description : String
  pin : String
deriving DecidableEq, Repr

/-- The transfer handler's observable outcome: a raised `HTTPException` or the
success dictionary carrying the generated reference. -/
inductive TransferResult where
  | httpError (status : Nat) (detail : String)
  | success (reference : String)
deriving DecidableEq, Repr

/-- `transfer_funds` (`app/routers/wallet.py` lines 140-207).  `verify_pin` is
the pwdlib hash check, passed in as `verify`; `reference` is the generated
UUID and `txid1`/`txid2` the fresh primary keys of the two transaction rows
(UUID generation is external nondeterminism).  Checks, in source order: PIN
set, PIN valid, `amount > 0`, sender wallet linked, sufficient funds,
recipient wallet exists by number, no self-transfer; then debits the sender,
credits the recipient, and commits both balances plus a debit-leg and a
credit-leg transaction as one atomic unit. -/
def transfer_funds (verify : String → String → Bool) (user : User)
    (request_data : TransferRequest) (reference : String) (txid1 txid2 : Nat)
    (st : DBState) : TransferResult × DBState :=
  match user.pin_hash with
  | none => (.httpError 400 "Transaction PIN not set", st)
  | some pin_hash =>
    if ¬ verify request_data.pin pin_hash then
      (.httpError 400 "Invalid Transaction PIN.", st)
    else if request_data.amount ≤ 0 then
      (.httpError 400 "Amount must be positive", st)
    else
      match user.wallet with
      | none => (.httpError 400 "You do not have a wallet", st)
      | some sender_wallet =>
        if sender_wallet.balance < request_data.amount then
          (.httpError 400 "Insufficient funds", st)
        else
          match st.wallets.find? (fun w => w.wallet_number == request_data.wallet_number) with
          | none => (.httpError 404 "Recipient wallet not found", st)
          | some receiver_wallet =>
            if sender_wallet.id = receiver_wallet.id then
              (.httpError 400 "Cannot transfer to yourself", st)
            else
              let sender_txn : Transaction :=
                { id := txid1, amount := -request_data.amount,
                  transaction_type := .transfer, status := .success,
                  reference := reference, wallet_id := sender_wallet.id,
                  meta_data := [("direction", "sent"), ("recipient", receiver_wallet.wallet_number)] }
              let receiver_txn : Transaction :=
                { id := txid2, amount := request_data.amount,
                  transaction_type := .transfer, status := .success,
                  reference := reference ++ "-credit", wallet_id := receiver_wallet.id,
                  meta_data := [("direction", "received"), ("sender", sender_wallet.wallet_number)] }
              (.success reference,
               { wallets := st.wallets.map (fun w =>
                   if w.id = sender_wallet.id then
                     { sender_wallet with balance := sender_wallet.balance - request_data.amount }
                   else if w.id = receiver_wallet.id then
                     { receiver_wallet with balance := receiver_wallet.balance + request_data.amount }
                   else w),
                 transactions := st.transactions ++ [sender_txn, receiver_txn] })

/-- `WithdrawalRequest` (`app/schemas.py`): amount (validated `gt=0` by the
schema), 10-digit account number, bank code, account name, PIN. -/
structure WithdrawalRequest where
  amount : Int
  account_number : String
  bank_code : String
  account_name : String
  pin : String
deriving DecidableEq, Repr

/-- Pydantic validation of `WithdrawalRequest` (`app/schemas.py` lines 29-34):
`amount` carries `Field(gt=0)` and `account_number` is exactly 10 characters.
FastAPI rejects a request violating these before `withdraw_funds` runs. -/
def WithdrawalRequest.valid (r : WithdrawalRequest) : Prop :=
  0 < r.amount ∧ r.account_number.length = 10

/-- The withdrawal handler's observable outcome. -/
inductive WithdrawResult where
  | httpError (status : Nat) (detail : String)
  | success (reference : String)
deriving DecidableEq, Repr

/-- `withdraw_funds` (`app/routers/wallet.py` lines 305-368).  The two
Paystack calls are external: `recipient_code` is the result of
`create_transfer_recipient` (`none` = registration failed) and
`transfer_status` the `"status"` flag of `initiate_transfer`'s result;
`reference` is the generated `wth-<uuid>` string and `txid` the fresh
transaction primary key.  Flow: PIN set, PIN valid, wallet linked,
sufficient funds; debit the wallet and commit (optimistic hold); on
recipient-registration failure credit it back, commit, and raise 500; on
payout-initiation failure credit it back, commit, log, and raise 502; on
success create and commit the pending withdrawal transaction. -/
def withdraw_funds (verify : String → String → Bool) (user : User)
    (request : WithdrawalRequest) (recipient_code : Option String)
    (transfer_status : Bool) (reference : String) (txid : Nat)
    (st : DBState) : WithdrawResult × DBState :=
  match user.pin_hash with
  | none => (.httpError 400 "PIN not set", st)
  | some pin_hash =>
    if ¬ verify request.pin pin_hash then
      (.httpError 401 "Invalid PIN", st)
    else
      match user.wallet with
      | none => (.httpError 400 "User does not have a linked wallet", st)
      | some wallet =>
        if wallet.balance < request.amount then
          (.httpError 400 "Insufficient funds", st)
        else
          let debited : DBState :=
            { st with wallets := st.wallets.map (fun w =>
                if w.id = wallet.id then { w with balance := w.balance - request.amount } else w) }
          match recipient_code with
          | none =>
            (.httpError 500 "Failed to register bank account with provider",
             { debited with wallets := debited.wallets.map (fun w =>
                 if w.id = wallet.id then { w with balance := w.balance + request.amount } else w) })
          | some _ =>
            if ¬ transfer_status then
              (.httpError 502 "Transfer failed at provider",
               { debited with wallets := debited.wallets.map (fun w =>
                   if w.id = wallet.id then { w with balance := w.balance + request.amount } else w) })
            else
              let txn : Transaction :=
                { id := txid, amount := -request.amount,
                  transaction_type := .withdrawal, status := .pending,
                  reference := reference, wallet_id := wallet.id,
                  meta_data := [("bank", request.bank_code), ("account", request.account_number)] }
              (.success reference,
               { debited with transactions := debited.transactions ++ [txn] })

/-- The deposit status-check's observable outcome: a raised `HTTPException`,
the ordinary `{reference, status, amount}` response, or the
"payment confirmed, wallet credited via webhook" note returned when the
gateway reports success for a still-pending transaction. -/
inductive DepositStatusResult where
  | httpError (status : Nat) (detail : String)
  | statusResp (reference : String) (status : TransactionStatus) (amount : Int)
  | successNote (reference : String) (amount : Int)
deriving DecidableEq, Repr

/-- `get_deposit_status` (`app/routers/wallet.py` lines 253-303).
`verifyResult` is the outcome of `paystack.verify_transaction`:
`.error ()` when the call raises (the handler swallows the exception), and
`.ok gs` with `gs = verification_data.get("status")` otherwise.  For a
pending transaction, a gateway status of `failed`/`reversed`/`abandoned`
marks the row `failed` and commits; a gateway status of `success` returns
the note without touching the database; anything else falls through to the
plain status response. -/
def get_deposit_status (reference : String) (user : User)
    (verifyResult : Except Unit (Option String)) (st : DBState) :
    DepositStatusResult × DBState :=
  match st.transactions.find? (fun t => t.reference == reference) with
  | none => (.httpError 404 "Transaction not found", st)
  | some txn =>
    match user.wallet with
    | none => (.httpError 403 "Not authorized to view this transaction", st)
    | some wallet =>
      if txn.wallet_id ≠ wallet.id then
        (.httpError 403 "Not authorized to view this transaction", st)
      else if txn.status = TransactionStatus.pending then
        match verifyResult with
        | .error _ => (.statusResp txn.reference txn.status txn.amount, st)
        | .ok gateway_status =>
          if gateway_status = some "failed" ∨ gateway_status = some "reversed"
              ∨ gateway_status = some "abandoned" then
            (.statusResp txn.reference TransactionStatus.failed txn.amount,
             { st with transactions := st.transactions.map (fun t =>
                 if t.id = txn.id then { t with status := TransactionStatus.failed } else t) })
          else if gateway_status = some "success" then
            (.successNote txn.reference txn.amount, st)
          else
            (.statusResp txn.reference txn.status txn.amount, st)
      else
        (.statusResp txn.reference txn.status txn.amount, st)

/-- A database state all of whose wallet balances are non-negative (spec §3's
rest-state invariant). -/
def nonnegState (st : DBState) : Prop :=
  ∀ w ∈ st.wallets, 0 ≤ w.balance

instance (st : DBState) : Decidable (nonnegState st) := by
  unfold nonnegState
  infer_instance

example :
    paystack_webhook_engine
      { event := some "charge.success", data_reference := some "r1", data_amount := some 700 }
      { wallets := [⟨1, "0000000001", 100⟩],
        transactions := [⟨10, 700, .deposit, .pending, "r1", 1, []⟩] }
    = (.resp "success" none,
       { wallets := [⟨1, "0000000001", 800⟩],
         transactions := [⟨10, 700, .deposit, .success, "r1", 1, []⟩] }) := by
  decide

/-- `find?` commutes with a `map` whose function does not change the truth of
the search predicate. -/
theorem find?_map_invariant {α : Type} (f : α → α) (p : α → Bool)
    (hf : ∀ x, p (f x) = p x) (l : List α) :
    (l.map f).find? p = (l.find? p).map f := by
  induction l with
  | nil => rfl
  | cons a t ih =>
    simp only [List.map_cons, List.find?]
    rw [hf a]
    cases p a
    · exact ih
    · rfl

/-- In a list whose keys are duplicate-free, searching for a member's key
finds exactly that member. -/
theorem find?_key_of_mem_nodup {α : Type} (key : α → Nat) (l : List α) (x : α)
    (hx : x ∈ l) (hnd : (l.map key).Nodup) :
    l.find? (fun y => key y == key x) = some x := by
  induction l with
  | nil => cases hx
  | cons a t ih =>
    simp only [List.map_cons, List.nodup_cons] at hnd
    rcases List.mem_cons.mp hx with h | h
    · subst h
      simp [List.find?]
    · have hne : key a ≠ key x := by
        intro he
        exact hnd.1 (he ▸ List.mem_map_of_mem key h)
      simp only [List.find?, beq_eq_false_iff_ne, ne_eq]
      rw [show (key a == key x) = false from beq_eq_false_iff_ne.mpr hne]
      exact ih h hnd.2

/-- Crediting a debited wallet row back restores it exactly (the pointwise
core of the withdrawal compensation pattern). -/
theorem debit_credit_cancel_wallet (w : Wallet) (i : Nat) (a : Int) :
    (fun x : Wallet => if x.id = i then { x with balance := x.balance + a } else x)
      (if w.id = i then { w with balance := w.balance - a } else w) = w := by
  by_cases h : w.id = i
  · rw [if_pos h]
    show (if ({ w with balance := w.balance - a } : Wallet).id = i then _ else _) = w
    rw [if_pos (show ({ w with balance := w.balance - a } : Wallet).id = i from h)]
    show (⟨w.id, w.wallet_number, w.balance - a + a⟩ : Wallet) = w
    rw [show w.balance - a + a = w.balance from by omega]
  · rw [if_neg h]
    show (if w.id = i then _ else _) = w
    rw [if_neg h]

/-- Debiting a wallet row by `a` and then crediting the same row by `a`
restores the wallet table exactly (the withdrawal compensation pattern). -/
theorem map_debit_credit_cancel (l : List Wallet) (i : Nat) (a : Int) :
    (l.map (fun w => if w.id = i then { w with balance := w.balance - a } else w)).map
      (fun w => if w.id = i then { w with balance := w.balance + a } else w) = l := by
  induction l with
  | nil => rfl
  | cons w t ih =>
    simp only [List.map_cons, ih]
    exact congrArg (fun x => x :: t) (debit_credit_cancel_wallet w i a)

/-- `getWallet` over an id-preserving row update rewrites pointwise. -/
theorem getWallet_map_id_preserving (l : List Wallet) (tx : List Transaction)
    (f : Wallet → Wallet) (hf : ∀ w, (f w).id = w.id) (i : Nat) :
    getWallet { wallets := l.map f, transactions := tx } i
      = (getWallet { wallets := l, transactions := tx } i).map f := by
  unfold getWallet
  exact find?_map_invariant f _ (fun w => by simp [hf]) l

/-- C2: for every successful transfer of a positive amount between distinct
wallets, the sender's balance decreases by exactly the amount, the
recipient's increases by exactly the amount, and the two balance deltas sum
to zero (conservation). -/
theorem transfer_funds_conservation (verify : String → String → Bool) (user : User)
    (request_data : TransferRequest) (reference : String) (txid1 txid2 : Nat)
    (st : DBState) (sw rw : Wallet)
    (hnd : (st.wallets.map Wallet.id).Nodup)
    (hsw : user.wallet = some sw) (hmem : sw ∈ st.wallets)
    (hrw : st.wallets.find? (fun w => w.wallet_number == request_data.wallet_number) = some rw)
    (hsucc : (transfer_funds verify user request_data reference txid1 txid2 st).1
      = TransferResult.success reference) :
    0 < request_data.amount ∧ sw.id ≠ rw.id ∧
    ∃ sw2 rw2 : Wallet,
      getWallet (transfer_funds verify user request_data reference txid1 txid2 st).2 sw.id
        = some sw2 ∧
      getWallet (transfer_funds verify user request_data reference txid1 txid2 st).2 rw.id
        = some rw2 ∧
      sw2.balance = sw.balance - request_data.amount ∧
      rw2.balance = rw.balance + request_data.amount ∧
      (sw2.balance - sw.balance) + (rw2.balance - rw.balance) = 0 := by
  have hrmem : rw ∈ st.wallets := List.mem_of_find?_eq_some hrw
  cases hph : user.pin_hash with
  | none =>
    unfold transfer_funds at hsucc
    rw [hph] at hsucc
    simp at hsucc
  | some ph =>
    unfold transfer_funds at hsucc
    rw [hph, hsw, hrw] at hsucc
    simp only at hsucc
    by_cases hv : verify request_data.pin ph = true
    swap
    · rw [if_pos (by simpa using hv)] at hsucc
      simp at hsucc
    rw [if_neg (not_not_intro hv)] at hsucc
    by_cases ha : request_data.amount ≤ 0
    · rw [if_pos ha] at hsucc
      simp at hsucc
    rw [if_neg ha] at hsucc
    by_cases hbal : sw.balance < request_data.amount
    · rw [if_pos hbal] at hsucc
      simp at hsucc
    rw [if_neg hbal] at hsucc
    by_cases hid : sw.id = rw.id
    · rw [if_pos hid] at hsucc
      simp at hsucc
    refine ⟨by omega, hid, ?_⟩
    have hstate : (transfer_funds verify user request_data reference txid1 txid2 st).2
        = { wallets := st.wallets.map (fun w =>
              if w.id = sw.id then { sw with balance := sw.balance - request_data.amount }
              else if w.id = rw.id then { rw with balance := rw.balance + request_data.amount }
              else w),
            transactions := st.transactions ++
              [{ id := txid1, amount := -request_data.amount, transaction_type := .transfer,
                 status := .success, reference := reference, wallet_id := sw.id,
                 meta_data := [("direction", "sent"), ("recipient", rw.wallet_number)] },
               { id := txid2, amount := request_data.amount, transaction_type := .transfer,
                 status := .success, reference := reference ++ "-credit", wallet_id := rw.id,
                 meta_data := [("direction", "received"), ("sender", sw.wallet_number)] }] } := by
      unfold transfer_funds
      rw [hph, hsw, hrw]
      simp only
      rw [if_neg (not_not_intro hv), if_neg ha, if_neg hbal, if_neg hid]
    rw [hstate]
    have hne : ¬ rw.id = sw.id := fun h => hid h.symm
    have hf : ∀ w : Wallet,
        ((fun w => if w.id = sw.id then { sw with balance := sw.balance - request_data.amount }
          else if w.id = rw.id then { rw with balance := rw.balance + request_data.amount }
          else w) w).id = w.id := by
      intro w
      by_cases h1 : w.id = sw.id
      · show (if w.id = sw.id then _ else _ : Wallet).id = w.id
        rw [if_pos h1]
        exact h1.symm
      · show (if w.id = sw.id then _ else _ : Wallet).id = w.id
        rw [if_neg h1]
        by_cases h2 : w.id = rw.id
        · show (if w.id = rw.id then _ else _ : Wallet).id = w.id
          rw [if_pos h2]
          exact h2.symm
        · show (if w.id = rw.id then _ else _ : Wallet).id = w.id
          rw [if_neg h2]
    refine ⟨{ sw with balance := sw.balance - request_data.amount },
            { rw with balance := rw.balance + request_data.amount }, ?_, ?_, rfl, rfl,
            by show (sw.balance - request_data.amount - sw.balance)
                + (rw.balance + request_data.amount - rw.balance) = 0; omega⟩
    · rw [getWallet_map_id_preserving _ _ _ hf sw.id]
      show (st.wallets.find? (fun w => w.id == sw.id)).map _ = _
      rw [find?_key_of_mem_nodup Wallet.id st.wallets sw hmem hnd]
      simp
    · rw [getWallet_map_id_preserving _ _ _ hf rw.id]
      show (st.wallets.find? (fun w => w.id == rw.id)).map _ = _
      rw [find?_key_of_mem_nodup Wallet.id st.wallets rw hrmem hnd]
      simp [hne]

/-- Witness for C2 at the spec §8 scenario: balances 50000 and 0, transfer of
5000 ⇒ sender 45000, recipient 5000, deltas cancel. -/
theorem transfer_funds_conservation_witness :
    (0:Int) < (5000:Int) ∧ (1:Nat) ≠ (2:Nat) ∧
    ∃ sw2 rw2 : Wallet,
      getWallet (transfer_funds (fun _ _ => true)
        ⟨7, some "h", some ⟨1, "1111111111", 50000⟩⟩
        ⟨"2222222222", 5000, "Transfer", "1234"⟩ "ref" 100 101
        ⟨[⟨1, "1111111111", 50000⟩, ⟨2, "2222222222", 0⟩], []⟩).2 1 = some sw2 ∧
      getWallet (transfer_funds (fun _ _ => true)
        ⟨7, some "h", some ⟨1, "1111111111", 50000⟩⟩
        ⟨"2222222222", 5000, "Transfer", "1234"⟩ "ref" 100 101
        ⟨[⟨1, "1111111111", 50000⟩, ⟨2, "2222222222", 0⟩], []⟩).2 2 = some rw2 ∧
      sw2.balance = (50000:Int) - 5000 ∧
      rw2.balance = (0:Int) + 5000 ∧
      (sw2.balance - 50000) + (rw2.balance - 0) = 0 :=
  transfer_funds_conservation (fun _ _ => true)
    ⟨7, some "h", some ⟨1, "1111111111", 50000⟩⟩
    ⟨"2222222222", 5000, "Transfer", "1234"⟩ "ref" 100 101
    ⟨[⟨1, "1111111111", 50000⟩, ⟨2, "2222222222", 0⟩], []⟩
    ⟨1, "1111111111", 50000⟩ ⟨2, "2222222222", 0⟩
    (by decide) rfl (by decide) (by decide) (by decide)

/-- C8: every transfer request with a non-positive amount, an insufficient
sender balance, an unknown recipient wallet number, or naming the sender's
own wallet is rejected with an `HTTPException` and leaves the database
(balances and transactions) exactly as it was. -/
theorem transfer_funds_reject_no_mutation (verify : String → String → Bool)
    (user : User) (request_data : TransferRequest) (reference : String)
    (txid1 txid2 : Nat) (st : DBState)
    (h : request_data.amount ≤ 0
      ∨ (∃ sw, user.wallet = some sw ∧ sw.balance < request_data.amount)
      ∨ st.wallets.find? (fun w => w.wallet_number == request_data.wallet_number) = none
      ∨ (∃ sw rw2, user.wallet = some sw
          ∧ st.wallets.find? (fun w => w.wallet_number == request_data.wallet_number) = some rw2
          ∧ sw.id = rw2.id)) :
    ∃ code detail, transfer_funds verify user request_data reference txid1 txid2 st
      = (TransferResult.httpError code detail, st) := by
  unfold transfer_funds
  cases hph : user.pin_hash with
  | none => exact ⟨400, "Transaction PIN not set", rfl⟩
  | some ph =>
    simp only
    by_cases hv : verify request_data.pin ph = true
    swap
    · rw [if_pos hv]
      exact ⟨400, "Invalid Transaction PIN.", rfl⟩
    rw [if_neg (not_not_intro hv)]
    by_cases ha : request_data.amount ≤ 0
    · rw [if_pos ha]
      exact ⟨400, "Amount must be positive", rfl⟩
    rw [if_neg ha]
    cases huw : user.wallet with
    | none => exact ⟨400, "You do not have a wallet", rfl⟩
    | some sw =>
      simp only
      by_cases hbal : sw.balance < request_data.amount
      · rw [if_pos hbal]
        exact ⟨400, "Insufficient funds", rfl⟩
      rw [if_neg hbal]
      cases hfind : st.wallets.find? (fun w => w.wallet_number == request_data.wallet_number) with
      | none => exact ⟨404, "Recipient wallet not found", rfl⟩
      | some rw2 =>
        simp only
        by_cases hid : sw.id = rw2.id
        · rw [if_pos hid]
          exact ⟨400, "Cannot transfer to yourself", rfl⟩
        exfalso
        rcases h with ha2 | ⟨sw2, hsw2, hlt⟩ | hnone | ⟨sw2, rw3, hsw2, hfind2, heq⟩
        · exact ha ha2
        · rw [huw] at hsw2
          injection hsw2 with he
          subst he
          exact hbal hlt
        · rw [hfind] at hnone
          exact Option.noConfusion hnone
        · rw [huw] at hsw2
          injection hsw2 with he
          subst he
          rw [hfind] at hfind2
          injection hfind2 with he2
          subst he2
          exact hid heq

/-- Witness for C8: a transfer of a non-positive amount is rejected without
touching the database. -/
theorem transfer_funds_reject_no_mutation_witness :
    ∃ code detail, transfer_funds (fun _ _ => true) ⟨7, some "h", none⟩
      ⟨"2222222222", -5, "Transfer", "1234"⟩ "ref" 100 101 ⟨[], []⟩
      = (TransferResult.httpError code detail, ⟨[], []⟩) :=
  transfer_funds_reject_no_mutation (fun _ _ => true) ⟨7, some "h", none⟩
    ⟨"2222222222", -5, "Transfer", "1234"⟩ "ref" 100 101 ⟨[], []⟩
    (Or.inl (by decide))

/-- C3: a withdrawal attempt that passes the PIN and balance checks but whose
gateway recipient-registration or payout-initiation step fails ends with a
provider `HTTPException` (500 or 502) and the database exactly as before the
attempt: the debited amount is fully credited back and no transaction row —
in particular none with status `success` — is created. -/
theorem withdraw_funds_compensation (verify : String → String → Bool)
    (user : User) (request : WithdrawalRequest) (recipient_code : Option String)
    (transfer_status : Bool) (reference : String) (txid : Nat) (st : DBState)
    (w : Wallet) (ph : String)
    (hph : user.pin_hash = some ph) (hv : verify request.pin ph = true)
    (hw : user.wallet = some w) (hbal : ¬ w.balance < request.amount)
    (hfail : recipient_code = none ∨ transfer_status = false) :
    withdraw_funds verify user request recipient_code transfer_status reference txid st
      = (WithdrawResult.httpError 500 "Failed to register bank account with provider", st)
    ∨ withdraw_funds verify user request recipient_code transfer_status reference txid st
      = (WithdrawResult.httpError 502 "Transfer failed at provider", st) := by
  unfold withdraw_funds
  rw [hph]
  simp only
  rw [if_neg (not_not_intro hv), hw]
  simp only
  rw [if_neg hbal]
  rcases hfail with hrc | hts
  · subst hrc
    left
    simp only
    rw [show ((st.wallets.map (fun w2 =>
        if w2.id = w.id then { w2 with balance := w2.balance - request.amount } else w2)).map
        (fun w2 =>
        if w2.id = w.id then { w2 with balance := w2.balance + request.amount } else w2))
        = st.wallets from map_debit_credit_cancel st.wallets w.id request.amount]
  · cases hrc2 : recipient_code with
    | none =>
      left
      simp only
      rw [show ((st.wallets.map (fun w2 =>
          if w2.id = w.id then { w2 with balance := w2.balance - request.amount } else w2)).map
          (fun w2 =>
          if w2.id = w.id then { w2 with balance := w2.balance + request.amount } else w2))
          = st.wallets from map_debit_credit_cancel st.wallets w.id request.amount]
    | some rc =>
      right
      subst hts
      simp only
      rw [if_pos (show ¬ false = true by decide)]
      rw [show ((st.wallets.map (fun w2 =>
          if w2.id = w.id then { w2 with balance := w2.balance - request.amount } else w2)).map
          (fun w2 =>
          if w2.id = w.id then { w2 with balance := w2.balance + request.amount } else w2))
          = st.wallets from map_debit_credit_cancel st.wallets w.id request.amount]

/-- Witness for C3: recipient registration fails for a wallet holding 1000,
withdrawal of 100 ⇒ provider error and untouched database. -/
theorem withdraw_funds_compensation_witness :
    withdraw_funds (fun _ _ => true) ⟨7, some "h", some ⟨1, "1111111111", 1000⟩⟩
      ⟨100, "0123456789", "058", "John Doe", "1234"⟩ none true "wth-1" 50
      ⟨[⟨1, "1111111111", 1000⟩], []⟩
      = (WithdrawResult.httpError 500 "Failed to register bank account with provider",
         ⟨[⟨1, "1111111111", 1000⟩], []⟩)
    ∨ withdraw_funds (fun _ _ => true) ⟨7, some "h", some ⟨1, "1111111111", 1000⟩⟩
      ⟨100, "0123456789", "058", "John Doe", "1234"⟩ none true "wth-1" 50
      ⟨[⟨1, "1111111111", 1000⟩], []⟩
      = (WithdrawResult.httpError 502 "Transfer failed at provider",
         ⟨[⟨1, "1111111111", 1000⟩], []⟩) :=
  withdraw_funds_compensation (fun _ _ => true) ⟨7, some "h", some ⟨1, "1111111111", 1000⟩⟩
    ⟨100, "0123456789", "058", "John Doe", "1234"⟩ none true "wth-1" 50
    ⟨[⟨1, "1111111111", 1000⟩], []⟩ ⟨1, "1111111111", 1000⟩ "h"
    rfl rfl rfl (by decide) (Or.inl rfl)

/-- C6: a withdrawal whose gateway recipient-registration and
payout-initiation steps both succeed returns a success status carrying the
withdrawal reference, and appends exactly one transaction row of type
`withdrawal` with `amount = -request.amount` and status `pending`
(settlement is confirmed later out-of-band). -/
theorem withdraw_funds_success_pending_txn (verify : String → String → Bool)
    (user : User) (request : WithdrawalRequest) (recipient_code : Option String)
    (transfer_status : Bool) (reference : String) (txid : Nat) (st : DBState)
    (w : Wallet) (ph : String) (rc : String)
    (hph : user.pin_hash = some ph) (hv : verify request.pin ph = true)
    (hw : user.wallet = some w) (hbal : ¬ w.balance < request.amount)
    (hrc : recipient_code = some rc) (hts : transfer_status = true) :
    (withdraw_funds verify user request recipient_code transfer_status reference txid st).1
      = WithdrawResult.success reference
    ∧ (withdraw_funds verify user request recipient_code transfer_status reference txid st).2.transactions
      = st.transactions ++
        [{ id := txid, amount := -request.amount, transaction_type := TransactionType.withdrawal,
           status := TransactionStatus.pending, reference := reference, wallet_id := w.id,
           meta_data := [("bank", request.bank_code), ("account", request.account_number)] }] := by
  unfold withdraw_funds
  rw [hph]
  simp only
  rw [if_neg (not_not_intro hv), hw]
  simp only
  rw [if_neg hbal]
  subst hrc
  subst hts
  simp only
  rw [if_neg (not_not_intro trivial)]
  exact ⟨rfl, rfl⟩

/-- Witness for C6: both gateway steps succeed for a withdrawal of 100 from a
wallet holding 1000 ⇒ success response and a pending withdrawal row for
-100. -/
theorem withdraw_funds_success_pending_txn_witness :
    (withdraw_funds (fun _ _ => true) ⟨7, some "h", some ⟨1, "1111111111", 1000⟩⟩
      ⟨100, "0123456789", "058", "John Doe", "1234"⟩ (some "RCP_1") true "wth-1" 50
      ⟨[⟨1, "1111111111", 1000⟩], []⟩).1 = WithdrawResult.success "wth-1"
    ∧ (withdraw_funds (fun _ _ => true) ⟨7, some "h", some ⟨1, "1111111111", 1000⟩⟩
      ⟨100, "0123456789", "058", "John Doe", "1234"⟩ (some "RCP_1") true "wth-1" 50
      ⟨[⟨1, "1111111111", 1000⟩], []⟩).2.transactions
      = [] ++
        [{ id := 50, amount := -(100:Int), transaction_type := TransactionType.withdrawal,
           status := TransactionStatus.pending, reference := "wth-1", wallet_id := 1,
           meta_data := [("bank", "058"), ("account", "0123456789")] }] :=
  withdraw_funds_success_pending_txn (fun _ _ => true)
    ⟨7, some "h", some ⟨1, "1111111111", 1000⟩⟩
    ⟨100, "0123456789", "058", "John Doe", "1234"⟩ (some "RCP_1") true "wth-1" 50
    ⟨[⟨1, "1111111111", 1000⟩], []⟩ ⟨1, "1111111111", 1000⟩ "h" "RCP_1"
    rfl rfl rfl (by decide) rfl rfl

/-- C9: a webhook request whose signature header is missing, or whose header
differs from the HMAC-SHA-512 hex digest of the raw body under the shared
secret, is rejected with a 400 `HTTPException` and no database mutation.
The conclusion holds for every `parseJson` function — in particular for ones
that fail or return arbitrary events — which expresses that verification
happens before the body is parsed and before any engine logic runs. -/
theorem paystack_webhook_bad_signature_rejected
    (hmacSha512 : String → String → String)
    (parseJson : String → Option WebhookEvent) (secret : String)
    (x_paystack_signature : Option String) (body : String) (st : DBState)
    (h : x_paystack_signature = none
      ∨ ∃ s, x_paystack_signature = some s ∧ hmacSha512 secret body ≠ s) :
    ∃ detail, paystack_webhook hmacSha512 parseJson secret x_paystack_signature body st
      = (WebhookResult.httpError 400 detail, st) := by
  rcases h with hnone | ⟨s, hsig, hne⟩
  · subst hnone
    exact ⟨"Missing signature header", rfl⟩
  · subst hsig
    refine ⟨"Invalid signature", ?_⟩
    unfold paystack_webhook
    simp only
    rw [if_pos hne]

/-- Witness for C9: a missing signature header is rejected with no mutation,
for a parser that would otherwise accept the body. -/
theorem paystack_webhook_bad_signature_rejected_witness :
    ∃ detail, paystack_webhook (fun k b => k ++ b)
      (fun _ => some ⟨some "charge.success", some "r1", some 700⟩) "sec" none "body"
      ⟨[⟨1, "0000000001", 0⟩], [⟨10, 700, .deposit, .pending, "r1", 1, []⟩]⟩
      = (WebhookResult.httpError 400 detail,
         ⟨[⟨1, "0000000001", 0⟩], [⟨10, 700, .deposit, .pending, "r1", 1, []⟩]⟩) :=
  paystack_webhook_bad_signature_rejected (fun k b => k ++ b)
    (fun _ => some ⟨some "charge.success", some "r1", some 700⟩) "sec" none "body"
    ⟨[⟨1, "0000000001", 0⟩], [⟨10, 700, .deposit, .pending, "r1", 1, []⟩]⟩
    (Or.inl rfl)

/-- Counterexample to C1 as stated: the webhook handler performs no
comparison of `amount_paid` against the transaction's recorded amount.  For
a pending transaction recording amount 100, a verified delivery carrying
amount 50 (a mismatch) does not mark the transaction `failed` and does not
leave the balance unchanged: it credits the wallet by 50 and marks the
transaction `success`, answering `{"status": "success"}`. -/
theorem paystack_webhook_amount_mismatch_still_credits :
    (100 : Int) ≠ (50 : Int)
    ∧ paystack_webhook_engine ⟨some "charge.success", some "r1", some 50⟩
        ⟨[⟨1, "0000000001", 0⟩], [⟨10, 100, .deposit, .pending, "r1", 1, []⟩]⟩
      = (.resp "success" none,
         ⟨[⟨1, "0000000001", 50⟩], [⟨10, 100, .deposit, .success, "r1", 1, []⟩]⟩) := by
  constructor
  · decide
  · decide

/-- Shared computation lemma: for a verified `charge.success` event whose
reference matches a non-`success` transaction with an existing owning
wallet and an integer delivered amount, the engine credits the wallet by
the delivered amount and marks the transaction `success`. -/
theorem paystack_webhook_engine_credit (event : WebhookEvent)
    (st : DBState) (txn : Transaction) (wallet : Wallet) (amount_paid : Int)
    (hev : event.event = some "charge.success")
    (hfind : st.transactions.find? (fun t => some t.reference == event.data_reference)
      = some txn)
    (hst : ¬ txn.status = TransactionStatus.success)
    (hwf : st.wallets.find? (fun w => w.id == txn.wallet_id) = some wallet)
    (hamt : event.data_amount = some amount_paid) :
    paystack_webhook_engine event st
      = (.resp "success" none,
         { wallets := st.wallets.map (fun w =>
             if w.id = wallet.id then { w with balance := w.balance + amount_paid } else w),
           transactions := st.transactions.map (fun t =>
             if t.id = txn.id then { t with status := TransactionStatus.success } else t) }) := by
  unfold paystack_webhook_engine
  rw [if_neg (not_not_intro hev), hfind]
  simp only
  rw [if_neg hst, hwf]
  simp only
  rw [hamt]

/-- C1 as amended: the webhook credits the delivered `amount_paid` whenever
the referenced transaction exists and is not already `success` and the
owning wallet exists, with no comparison against the transaction's recorded
amount — the credit happens even when `amount_paid` differs from it, and no
amount-mismatch error path exists. -/
theorem paystack_webhook_credits_delivered_amount (event : WebhookEvent)
    (st : DBState) (txn : Transaction) (wallet : Wallet) (amount_paid : Int)
    (hev : event.event = some "charge.success")
    (hfind : st.transactions.find? (fun t => some t.reference == event.data_reference)
      = some txn)
    (hst : ¬ txn.status = TransactionStatus.success)
    (hwf : st.wallets.find? (fun w => w.id == txn.wallet_id) = some wallet)
    (hamt : event.data_amount = some amount_paid) :
    paystack_webhook_engine event st
      = (.resp "success" none,
         { wallets := st.wallets.map (fun w =>
             if w.id = wallet.id then { w with balance := w.balance + amount_paid } else w),
           transactions := st.transactions.map (fun t =>
             if t.id = txn.id then { t with status := TransactionStatus.success } else t) }) :=
  paystack_webhook_engine_credit event st txn wallet amount_paid hev hfind hst hwf hamt

/-- Witness for C1's amended theorem: recorded amount 100, delivered amount
50 — the wallet is credited by 50 and the transaction marked success. -/
theorem paystack_webhook_credits_delivered_amount_witness :
    paystack_webhook_engine ⟨some "charge.success", some "r1", some 50⟩
      ⟨[⟨1, "0000000001", 0⟩], [⟨10, 100, .deposit, .pending, "r1", 1, []⟩]⟩
      = (.resp "success" none,
         { wallets := [⟨1, "0000000001", 0⟩].map (fun w =>
             if w.id = 1 then { w with balance := w.balance + 50 } else w),
           transactions := [(⟨10, 100, .deposit, .pending, "r1", 1, []⟩ : Transaction)].map (fun t =>
             if t.id = 10 then { t with status := TransactionStatus.success } else t) }) :=
  paystack_webhook_credits_delivered_amount
    ⟨some "charge.success", some "r1", some 50⟩
    ⟨[⟨1, "0000000001", 0⟩], [⟨10, 100, .deposit, .pending, "r1", 1, []⟩]⟩
    ⟨10, 100, .deposit, .pending, "r1", 1, []⟩ ⟨1, "0000000001", 0⟩ 50
    rfl (by decide) (by decide) (by decide) rfl

/-- Counterexample to C4 as stated: `failed` is not treated as a terminal
state.  A verified `charge.success` delivery whose reference matches a
transaction already in status `failed` is not a no-op returning the prior
outcome: the handler credits the wallet (0 becomes 100) and flips the
status to `success`. -/
theorem paystack_webhook_failed_txn_recredited :
    paystack_webhook_engine ⟨some "charge.success", some "r1", some 100⟩
        ⟨[⟨1, "0000000001", 0⟩], [⟨10, 100, .deposit, .failed, "r1", 1, []⟩]⟩
      = (.resp "success" none,
         ⟨[⟨1, "0000000001", 100⟩], [⟨10, 100, .deposit, .success, "r1", 1, []⟩]⟩)
    ∧ (paystack_webhook_engine ⟨some "charge.success", some "r1", some 100⟩
        ⟨[⟨1, "0000000001", 0⟩], [⟨10, 100, .deposit, .failed, "r1", 1, []⟩]⟩).2
      ≠ ⟨[⟨1, "0000000001", 0⟩], [⟨10, 100, .deposit, .failed, "r1", 1, []⟩]⟩ := by
  constructor
  · decide
  · decide

/-- C4 as amended: only a transaction whose status is `success` is treated
as terminal by the webhook handler — re-delivery for it returns the prior
"already processed" outcome with no mutation — whereas a matching
transaction in status `failed` is handled like a pending one: the wallet is
credited with the delivered amount and the status set to `success`. -/
theorem paystack_webhook_only_success_is_terminal :
    (∀ (event : WebhookEvent) (st : DBState) (txn : Transaction),
       event.event = some "charge.success" →
       st.transactions.find? (fun t => some t.reference == event.data_reference) = some txn →
       txn.status = TransactionStatus.success →
       paystack_webhook_engine event st
         = (.resp "ignored" (some "Transaction already processed"), st))
  ∧ (∀ (event : WebhookEvent) (st : DBState) (txn : Transaction) (wallet : Wallet)
       (amount_paid : Int),
       event.event = some "charge.success" →
       st.transactions.find? (fun t => some t.reference == event.data_reference) = some txn →
       txn.status = TransactionStatus.failed →
       st.wallets.find? (fun w => w.id == txn.wallet_id) = some wallet →
       event.data_amount = some amount_paid →
       paystack_webhook_engine event st
         = (.resp "success" none,
            { wallets := st.wallets.map (fun w =>
                if w.id = wallet.id then { w with balance := w.balance + amount_paid } else w),
              transactions := st.transactions.map (fun t =>
                if t.id = txn.id then { t with status := TransactionStatus.success } else t) })) := by
  constructor
  · intro event st txn hev hfind hst
    unfold paystack_webhook_engine
    rw [if_neg (not_not_intro hev), hfind]
    simp only
    rw [if_pos hst]
  · intro event st txn wallet amount_paid hev hfind hst hwf hamt
    exact paystack_webhook_engine_credit event st txn wallet amount_paid
      hev hfind (by rw [hst]; exact fun h => TransactionStatus.noConfusion h) hwf hamt

/-- Witness for C4's amended theorem: a success-status transaction is a
no-op replay, and a failed-status transaction is re-credited. -/
theorem paystack_webhook_only_success_is_terminal_witness :
    paystack_webhook_engine ⟨some "charge.success", some "r1", some 700⟩
      ⟨[⟨1, "0000000001", 700⟩], [⟨10, 700, .deposit, .success, "r1", 1, []⟩]⟩
      = (.resp "ignored" (some "Transaction already processed"),
         ⟨[⟨1, "0000000001", 700⟩], [⟨10, 700, .deposit, .success, "r1", 1, []⟩]⟩)
    ∧ paystack_webhook_engine ⟨some "charge.success", some "r2", some 80⟩
      ⟨[⟨2, "0000000002", 5⟩], [⟨11, 80, .deposit, .failed, "r2", 2, []⟩]⟩
      = (.resp "success" none,
         { wallets := [(⟨2, "0000000002", 5⟩ : Wallet)].map (fun w =>
             if w.id = 2 then { w with balance := w.balance + 80 } else w),
           transactions := [(⟨11, 80, .deposit, .failed, "r2", 2, []⟩ : Transaction)].map (fun t =>
             if t.id = 11 then { t with status := TransactionStatus.success } else t) }) :=
  ⟨paystack_webhook_only_success_is_terminal.1
      ⟨some "charge.success", some "r1", some 700⟩
      ⟨[⟨1, "0000000001", 700⟩], [⟨10, 700, .deposit, .success, "r1", 1, []⟩]⟩
      ⟨10, 700, .deposit, .success, "r1", 1, []⟩ rfl (by decide) rfl,
   paystack_webhook_only_success_is_terminal.2
      ⟨some "charge.success", some "r2", some 80⟩
      ⟨[⟨2, "0000000002", 5⟩], [⟨11, 80, .deposit, .failed, "r2", 2, []⟩]⟩
      ⟨11, 80, .deposit, .failed, "r2", 2, []⟩ ⟨2, "0000000002", 5⟩ 80
      rfl (by decide) rfl (by decide) rfl⟩

/-- The engine either leaves the database untouched or answers
`{"status": "success"}`: every non-success response (ignored / error) is a
read-only path. -/
theorem paystack_webhook_engine_unchanged_or_success (event : WebhookEvent)
    (st : DBState) :
    (paystack_webhook_engine event st).2 = st
    ∨ (paystack_webhook_engine event st).1 = WebhookResult.resp "success" none := by
  unfold paystack_webhook_engine
  by_cases hev : event.event ≠ some "charge.success"
  · rw [if_pos hev]
    exact Or.inl rfl
  rw [if_neg hev]
  cases hfind : st.transactions.find? (fun t => some t.reference == event.data_reference) with
  | none => exact Or.inl rfl
  | some txn =>
    simp only
    by_cases hst : txn.status = TransactionStatus.success
    · rw [if_pos hst]
      exact Or.inl rfl
    rw [if_neg hst]
    cases hwf : st.wallets.find? (fun w => w.id == txn.wallet_id) with
    | none => exact Or.inl rfl
    | some wallet =>
      simp only
      cases hamt : event.data_amount with
      | none => exact Or.inl rfl
      | some amount_paid => exact Or.inr rfl

/-- C5: at-most-once credit per reference.  First conjunct: whenever a
delivery answers `{"status": "success"}` (the only mutating outcome), an
identical re-delivery against the resulting state answers
"already processed" and leaves that state exactly unchanged — so every
further delivery is a no-op as well.  Second conjunct: every delivery
answered "ignored" leaves the database unchanged. -/
theorem paystack_webhook_at_most_once :
    (∀ (event : WebhookEvent) (st : DBState),
       (paystack_webhook_engine event st).1 = WebhookResult.resp "success" none →
       paystack_webhook_engine event (paystack_webhook_engine event st).2
         = (WebhookResult.resp "ignored" (some "Transaction already processed"),
            (paystack_webhook_engine event st).2))
  ∧ (∀ (event : WebhookEvent) (st : DBState) (m : Option String),
       (paystack_webhook_engine event st).1 = WebhookResult.resp "ignored" m →
       (paystack_webhook_engine event st).2 = st) := by
  constructor
  · intro event st hsucc
    by_cases hev : event.event ≠ some "charge.success"
    · exfalso
      unfold paystack_webhook_engine at hsucc
      rw [if_pos hev] at hsucc
      injection hsucc with h1 h2
      exact absurd h1 (by decide)
    have hev2 : event.event = some "charge.success" := not_not.mp hev
    cases hfind : st.transactions.find? (fun t => some t.reference == event.data_reference) with
    | none =>
      exfalso
      unfold paystack_webhook_engine at hsucc
      rw [if_neg hev, hfind] at hsucc
      injection hsucc with h1 h2
      exact absurd h1 (by decide)
    | some txn =>
      by_cases hst : txn.status = TransactionStatus.success
      · exfalso
        unfold paystack_webhook_engine at hsucc
        rw [if_neg hev, hfind] at hsucc
        simp only at hsucc
        rw [if_pos hst] at hsucc
        injection hsucc with h1 h2
        exact absurd h1 (by decide)
      cases hwf : st.wallets.find? (fun w => w.id == txn.wallet_id) with
      | none =>
        exfalso
        unfold paystack_webhook_engine at hsucc
        rw [if_neg hev, hfind] at hsucc
        simp only at hsucc
        rw [if_neg hst, hwf] at hsucc
        injection hsucc with h1 h2
        exact absurd h1 (by decide)
      | some wallet =>
        cases hamt : event.data_amount with
        | none =>
          exfalso
          unfold paystack_webhook_engine at hsucc
          rw [if_neg hev, hfind] at hsucc
          simp only at hsucc
          rw [if_neg hst, hwf] at hsucc
          simp only at hsucc
          rw [hamt] at hsucc
          injection hsucc with h1 h2
          exact absurd h1 (by decide)
        | some amount_paid =>
          have hcred := paystack_webhook_engine_credit event st txn wallet amount_paid
            hev2 hfind hst hwf hamt
          have hp : ∀ t : Transaction,
              (fun t => some t.reference == event.data_reference)
                ((fun t => if t.id = txn.id then { t with status := TransactionStatus.success }
                  else t) t)
              = (fun t => some t.reference == event.data_reference) t := by
            intro t
            show (some (if t.id = txn.id then { t with status := TransactionStatus.success }
                else t).reference == event.data_reference)
              = (some t.reference == event.data_reference)
            by_cases h : t.id = txn.id
            · rw [if_pos h]
            · rw [if_neg h]
          have hsecond : ∀ st1 : DBState,
              st1.transactions = st.transactions.map
                (fun t => if t.id = txn.id then { t with status := TransactionStatus.success }
                  else t) →
              paystack_webhook_engine event st1
                = (WebhookResult.resp "ignored" (some "Transaction already processed"), st1) := by
            intro st1 htx
            have hfind1 : st1.transactions.find? (fun t => some t.reference == event.data_reference)
                = some { txn with status := TransactionStatus.success } := by
              rw [htx, find?_map_invariant _ _ hp, hfind]
              simp only [Option.map_some']
              rw [if_pos trivial]
            unfold paystack_webhook_engine
            rw [if_neg (not_not_intro hev2), hfind1]
            rfl
          exact hsecond (paystack_webhook_engine event st).2 (by rw [hcred])
  · intro event st m hig
    rcases paystack_webhook_engine_unchanged_or_success event st with h | h
    · exact h
    · rw [hig] at h
      injection h with h1 h2
      exact absurd h1 (by decide)

/-- Witness for C5: a first delivery credits (responds success); replaying
the identical event against the resulting state answers
"already processed" with no change; and an ignored delivery mutates
nothing. -/
theorem paystack_webhook_at_most_once_witness :
    paystack_webhook_engine ⟨some "charge.success", some "r1", some 700⟩
      (paystack_webhook_engine ⟨some "charge.success", some "r1", some 700⟩
        ⟨[⟨1, "0000000001", 100⟩], [⟨10, 700, .deposit, .pending, "r1", 1, []⟩]⟩).2
      = (WebhookResult.resp "ignored" (some "Transaction already processed"),
         (paystack_webhook_engine ⟨some "charge.success", some "r1", some 700⟩
           ⟨[⟨1, "0000000001", 100⟩], [⟨10, 700, .deposit, .pending, "r1", 1, []⟩]⟩).2)
    ∧ (paystack_webhook_engine ⟨some "charge.failed", none, none⟩
        ⟨[], []⟩).2 = ⟨[], []⟩ :=
  ⟨paystack_webhook_at_most_once.1
      ⟨some "charge.success", some "r1", some 700⟩
      ⟨[⟨1, "0000000001", 100⟩], [⟨10, 700, .deposit, .pending, "r1", 1, []⟩]⟩ (by decide),
   paystack_webhook_at_most_once.2 ⟨some "charge.failed", none, none⟩ ⟨[], []⟩
      (some "Event type not monitored") (by decide)⟩

/-- Counterexample to C7 as stated: the webhook handler adds whatever
integer `data.amount` the delivered event carries, with no sign check.  A
verified `charge.success` delivery carrying amount `-1` against a pending
transaction commits a wallet balance of `-1`: an observable rest state with
a negative balance. -/
theorem negative_webhook_amount_breaks_nonneg :
    nonnegState ⟨[⟨1, "0000000001", 0⟩], [⟨10, 700, .deposit, .pending, "r1", 1, []⟩]⟩
    ∧ (paystack_webhook_engine ⟨some "charge.success", some "r1", some (-1)⟩
        ⟨[⟨1, "0000000001", 0⟩], [⟨10, 700, .deposit, .pending, "r1", 1, []⟩]⟩).1
      = WebhookResult.resp "success" none
    ∧ ¬ nonnegState (paystack_webhook_engine ⟨some "charge.success", some "r1", some (-1)⟩
        ⟨[⟨1, "0000000001", 0⟩], [⟨10, 700, .deposit, .pending, "r1", 1, []⟩]⟩).2 :=
  ⟨by decide, by decide, by decide⟩

/-- C7 as amended: a database state with only non-negative balances keeps
only non-negative balances after any committed transfer, after any
committed withdrawal (including its compensating credit; the session-loaded
wallet must agree with its stored row), and after any deposit-confirmation
webhook whose delivered amount is non-negative.  The non-negativity proviso
on the delivered webhook amount is forced by the counterexample: the
handler itself never checks it. -/
theorem nonneg_balances_preserved :
    (∀ (verify : String → String → Bool) (user : User) (request_data : TransferRequest)
       (reference : String) (txid1 txid2 : Nat) (st : DBState),
       nonnegState st →
       nonnegState (transfer_funds verify user request_data reference txid1 txid2 st).2)
  ∧ (∀ (verify : String → String → Bool) (user : User) (request : WithdrawalRequest)
       (recipient_code : Option String) (transfer_status : Bool) (reference : String)
       (txid : Nat) (st : DBState),
       nonnegState st →
       (∀ w2, user.wallet = some w2 → ∀ x ∈ st.wallets, x.id = w2.id → x.balance = w2.balance) →
       nonnegState
         (withdraw_funds verify user request recipient_code transfer_status reference txid st).2)
  ∧ (∀ (event : WebhookEvent) (st : DBState),
       nonnegState st →
       (∀ a, event.data_amount = some a → 0 ≤ a) →
       nonnegState (paystack_webhook_engine event st).2) := by
  refine ⟨?_, ?_, ?_⟩
  · intro verify user request_data reference txid1 txid2 st hnn
    unfold transfer_funds
    cases hph : user.pin_hash with
    | none => exact hnn
    | some ph =>
      simp only
      by_cases hv : verify request_data.pin ph = true
      swap
      · rw [if_pos hv]
        exact hnn
      rw [if_neg (not_not_intro hv)]
      by_cases ha : request_data.amount ≤ 0
      · rw [if_pos ha]
        exact hnn
      rw [if_neg ha]
      cases huw : user.wallet with
      | none => exact hnn
      | some sw =>
        simp only
        by_cases hbal : sw.balance < request_data.amount
        · rw [if_pos hbal]
          exact hnn
        rw [if_neg hbal]
        cases hfind : st.wallets.find? (fun w => w.wallet_number == request_data.wallet_number) with
        | none => exact hnn
        | some recv =>
          simp only
          by_cases hid : sw.id = recv.id
          · rw [if_pos hid]
            exact hnn
          rw [if_neg hid]
          have hrecvmem : recv ∈ st.wallets := List.mem_of_find?_eq_some hfind
          intro w2 hw2
          rcases List.mem_map.mp hw2 with ⟨x, hx, hfx⟩
          subst hfx
          show 0 ≤ (if x.id = sw.id then
              { sw with balance := sw.balance - request_data.amount }
            else if x.id = recv.id then
              { recv with balance := recv.balance + request_data.amount }
            else x).balance
          by_cases h1 : x.id = sw.id
          · rw [if_pos h1]
            show 0 ≤ sw.balance - request_data.amount
            omega
          rw [if_neg h1]
          by_cases h2 : x.id = recv.id
          · rw [if_pos h2]
            show 0 ≤ recv.balance + request_data.amount
            have := hnn recv hrecvmem
            omega
          · rw [if_neg h2]
            exact hnn x hx
  · intro verify user request recipient_code transfer_status reference txid st hnn hcons
    unfold withdraw_funds
    cases hph : user.pin_hash with
    | none => exact hnn
    | some ph =>
      simp only
      by_cases hv : verify request.pin ph = true
      swap
      · rw [if_pos hv]
        exact hnn
      rw [if_neg (not_not_intro hv)]
      cases huw : user.wallet with
      | none => exact hnn
      | some w =>
        simp only
        by_cases hbal : w.balance < request.amount
        · rw [if_pos hbal]
          exact hnn
        rw [if_neg hbal]
        cases hrc : recipient_code with
        | none =>
          simp only
          rw [show ((st.wallets.map (fun w2 =>
              if w2.id = w.id then { w2 with balance := w2.balance - request.amount } else w2)).map
              (fun w2 =>
              if w2.id = w.id then { w2 with balance := w2.balance + request.amount } else w2))
              = st.wallets from map_debit_credit_cancel st.wallets w.id request.amount]
          exact hnn
        | some rc =>
          simp only
          by_cases hts : transfer_status = true
          swap
          · rw [if_pos hts]
            rw [show ((st.wallets.map (fun w2 =>
                if w2.id = w.id then { w2 with balance := w2.balance - request.amount } else w2)).map
                (fun w2 =>
                if w2.id = w.id then { w2 with balance := w2.balance + request.amount } else w2))
                = st.wallets from map_debit_credit_cancel st.wallets w.id request.amount]
            exact hnn
          rw [if_neg (not_not_intro hts)]
          intro y hy
          rcases List.mem_map.mp hy with ⟨x, hx, hfx⟩
          subst hfx
          show 0 ≤ (if x.id = w.id then
              { x with balance := x.balance - request.amount } else x).balance
          by_cases h1 : x.id = w.id
          · rw [if_pos h1]
            show 0 ≤ x.balance - request.amount
            have := hcons w huw x hx h1
            omega
          · rw [if_neg h1]
            exact hnn x hx
  · intro event st hnn hamt
    unfold paystack_webhook_engine
    by_cases hev : event.event ≠ some "charge.success"
    · rw [if_pos hev]
      exact hnn
    rw [if_neg hev]
    cases hfind : st.transactions.find? (fun t => some t.reference == event.data_reference) with
    | none => exact hnn
    | some txn =>
      simp only
      by_cases hst : txn.status = TransactionStatus.success
      · rw [if_pos hst]
        exact hnn
      rw [if_neg hst]
      cases hwf : st.wallets.find? (fun w => w.id == txn.wallet_id) with
      | none => exact hnn
      | some wallet =>
        simp only
        cases hamt2 : event.data_amount with
        | none => exact hnn
        | some amount_paid =>
          simp only
          intro y hy
          rcases List.mem_map.mp hy with ⟨x, hx, hfx⟩
          subst hfx
          show 0 ≤ (if x.id = wallet.id then
              { x with balance := x.balance + amount_paid } else x).balance
          have hap : 0 ≤ amount_paid := hamt amount_paid hamt2
          by_cases h1 : x.id = wallet.id
          · rw [if_pos h1]
            show 0 ≤ x.balance + amount_paid
            have := hnn x hx
            omega
          · rw [if_neg h1]
            exact hnn x hx

/-- Witness for C7's amended theorem: all three conjuncts instantiated — a
committed transfer, a committed withdrawal, and a non-negative webhook
credit each preserve non-negative balances. -/
theorem nonneg_balances_preserved_witness :
    nonnegState (transfer_funds (fun _ _ => true)
      ⟨7, some "h", some ⟨1, "1111111111", 50000⟩⟩
      ⟨"2222222222", 5000, "Transfer", "1234"⟩ "ref" 100 101
      ⟨[⟨1, "1111111111", 50000⟩, ⟨2, "2222222222", 0⟩], []⟩).2
    ∧ nonnegState (withdraw_funds (fun _ _ => true)
      ⟨7, some "h", some ⟨1, "1111111111", 1000⟩⟩
      ⟨100, "0123456789", "058", "John Doe", "1234"⟩ (some "RCP_1") true "wth-1" 50
      ⟨[⟨1, "1111111111", 1000⟩], []⟩).2
    ∧ nonnegState (paystack_webhook_engine ⟨some "charge.success", some "r1", some 700⟩
      ⟨[⟨1, "0000000001", 100⟩], [⟨10, 700, .deposit, .pending, "r1", 1, []⟩]⟩).2 :=
  ⟨nonneg_balances_preserved.1 (fun _ _ => true)
      ⟨7, some "h", some ⟨1, "1111111111", 50000⟩⟩
      ⟨"2222222222", 5000, "Transfer", "1234"⟩ "ref" 100 101
      ⟨[⟨1, "1111111111", 50000⟩, ⟨2, "2222222222", 0⟩], []⟩ (by decide),
   nonneg_balances_preserved.2.1 (fun _ _ => true)
      ⟨7, some "h", some ⟨1, "1111111111", 1000⟩⟩
      ⟨100, "0123456789", "058", "John Doe", "1234"⟩ (some "RCP_1") true "wth-1" 50
      ⟨[⟨1, "1111111111", 1000⟩], []⟩ (by decide)
      (by
        intro w2 hw2
        injection hw2 with h
        subst h
        decide),
   nonneg_balances_preserved.2.2 ⟨some "charge.success", some "r1", some 700⟩
      ⟨[⟨1, "0000000001", 100⟩], [⟨10, 700, .deposit, .pending, "r1", 1, []⟩]⟩ (by decide)
      (by
        intro a ha
        injection ha with h
        omega)⟩

/-- C10: the deposit status-check never touches any wallet balance and never
sets a transaction to `success`: either the database is returned exactly
unchanged, or — only when the queried transaction is `pending` and the
gateway verification returned `failed`, `reversed` or `abandoned` — the
sole mutation is flipping that pending transaction's status to `failed`.
In particular a gateway report of `success` changes nothing. -/
theorem get_deposit_status_frame (reference : String) (user : User)
    (verifyResult : Except Unit (Option String)) (st : DBState) :
    (get_deposit_status reference user verifyResult st).2.wallets = st.wallets
    ∧ ((get_deposit_status reference user verifyResult st).2 = st
       ∨ ∃ gs txn, verifyResult = Except.ok (some gs)
           ∧ (gs = "failed" ∨ gs = "reversed" ∨ gs = "abandoned")
           ∧ st.transactions.find? (fun t => t.reference == reference) = some txn
           ∧ txn.status = TransactionStatus.pending
           ∧ (get_deposit_status reference user verifyResult st).2.transactions
             = st.transactions.map (fun t =>
                 if t.id = txn.id then { t with status := TransactionStatus.failed } else t)) := by
  unfold get_deposit_status
  cases hfind : st.transactions.find? (fun t => t.reference == reference) with
  | none => exact ⟨rfl, Or.inl rfl⟩
  | some txn =>
    simp only
    cases huw : user.wallet with
    | none => exact ⟨rfl, Or.inl rfl⟩
    | some wallet =>
      simp only
      by_cases hauth : txn.wallet_id ≠ wallet.id
      · rw [if_pos hauth]
        exact ⟨rfl, Or.inl rfl⟩
      rw [if_neg hauth]
      by_cases hpend : txn.status = TransactionStatus.pending
      swap
      · rw [if_neg hpend]
        exact ⟨rfl, Or.inl rfl⟩
      rw [if_pos hpend]
      cases verifyResult with
      | error e => exact ⟨rfl, Or.inl rfl⟩
      | ok gs =>
        simp only
        by_cases hgs : gs = some "failed" ∨ gs = some "reversed" ∨ gs = some "abandoned"
        · rw [if_pos hgs]
          refine ⟨rfl, Or.inr ?_⟩
          rcases hgs with h | h | h
          · exact ⟨"failed", txn, by rw [h], Or.inl rfl, rfl, hpend, rfl⟩
          · exact ⟨"reversed", txn, by rw [h], Or.inr (Or.inl rfl), rfl, hpend, rfl⟩
          · exact ⟨"abandoned", txn, by rw [h], Or.inr (Or.inr rfl), rfl, hpend, rfl⟩
        rw [if_neg hgs]
        by_cases hsucc : gs = some "success"
        · rw [if_pos hsucc]
          exact ⟨rfl, Or.inl rfl⟩
        · rw [if_neg hsucc]
          exact ⟨rfl, Or.inl rfl⟩
